import Mathlib

/-!
Verification of the safety-observation reporting portal.

The definitions below are a shallow embedding of the TypeScript source:
the create flow (`SafetyReport.handleSubmit`, `validateForm`,
`handleSaveActionPlan`), the edit flow (`ReportView.handleSubmit`,
`handleAddActionPlan`), the reports table
(`SafetyReportsTable.loadReports`, `confirmDelete`, `exportToCSV`) and
the PDF renderer's image cache (`SafetyReportPDF.loadImage`).

Remote calls (auth lookup, storage upload, row insert/update/delete)
are modelled by explicit environment records carrying each call's
outcome, and the backing store is an explicit record of row lists, so
that every run of an operation is a pure function of the form state,
the environment and the store.
-/

namespace SafetyPortal

/-- A persisted Observation row in the `observation_details` table. -/
structure ObservationRow where
  id : String
  project_id : String
  company_id : String
  submitter_name : String
  date : String
  time : String
  department : String
  location : String
  description : String
  report_group : String
  consequences : String
  likelihood : String
  status : String
  subject : String
  corrective_action : Bool
  supporting_image : Option String
  created_by : String
  created_at : String
  deriving Repr, DecidableEq

/-- A row of the `observation_categories` links table. -/
structure CategoryLinkRow where
  observation_id : String
  category_id : String
  deriving Repr, DecidableEq

/-- A persisted Action Plan row in the `action_plans` table. -/
structure ActionPlanRow where
  observation_id : String
  action : String
  due_date : String
  responsible_person : String
  follow_up_contact : String
  status : String
  supporting_image : Option String
  created_by : String
  deriving Repr, DecidableEq

/-- The relational store: the three tables the observation workflows touch. -/
structure DB where
  observation_details : List ObservationRow
  observation_categories : List CategoryLinkRow
  action_plans : List ActionPlanRow
  deriving Repr, DecidableEq

/-- The empty store. -/
def DB.empty : DB := ⟨[], [], []⟩

/-! ## Create flow (`SafetyReport`, mode = create) -/

/-- An Action Plan staged in the create form (interface `ActionPlan` of the
create-flow component: camel-cased field names, no id). -/
structure ActionPlanDraft where
  action : String
  dueDate : String
  responsiblePerson : String
  followUpContact : String
  status : String
  deriving Repr, DecidableEq

/-- The create form's draft state at submit time. -/
structure CreateForm where
  project : String
  company : String
  submitterName : String
  date : String
  time : String
  department : String
  location : String
  description : String
  reportGroup : String
  consequences : String
  likelihood : String
  status : String
  subject : String
  actionPlanRequired : String
  actionPlans : List ActionPlanDraft
  selectedCategories : List String
  imageFile : Option String
  deriving Repr, DecidableEq

/-- `validateForm` of the create flow: returns the map of per-field error
messages as an association list, in the order the source populates it.
JavaScript's falsiness test `!x` on the string fields is the empty-string
test. -/
def validateForm (f : CreateForm) : List (String × String) :=
  (if f.project = "" then [("project", "Project is required")] else []) ++
  (if f.company = "" then [("company", "Company is required")] else []) ++
  (if f.submitterName = "" then [("submitterName", "Submitter name is required")] else []) ++
  (if f.date = "" then [("date", "Date is required")] else []) ++
  (if f.time = "" then [("time", "Time is required")] else []) ++
  (if f.location = "" then [("location", "Location is required")] else []) ++
  (if f.description = "" then [("description", "Description is required")] else []) ++
  (if f.reportGroup = "" then [("reportGroup", "Report group is required")] else []) ++
  (if f.consequences = "" then [("consequences", "Consequences is required")] else []) ++
  (if f.likelihood = "" then [("likelihood", "Likelihood is required")] else []) ++
  (if f.subject = "" then [("subject", "Subject is required")] else []) ++
  (if f.selectedCategories.length = 0 then
    [("categories", "At least one safety category is required")] else []) ++
  (if f.actionPlanRequired = "yes" ∧ f.actionPlans.length = 0 then
    [("actionPlans", "At least one action plan is required")] else [])

/-- Outcomes of the remote calls made by the create flow's `handleSubmit`:
the auth lookup, the storage upload, the `observation_details` insert
(`.select().single()` may also succeed yet return no row, hence the
`Option` payload carrying the new row id), and the two batch inserts. -/
structure CreateEnv where
  nowMs : Nat
  user : Option String
  uploadResult : Except String String
  observationResult : Except String (Option String)
  categoriesResult : Except String Unit
  actionPlansResult : Except String Unit
  deriving Repr

/-- One write issued against storage or the store during a submit. -/
inductive WriteOp where
  | uploadImage (bucket : String) (key : String)
  | insertObservation (row : ObservationRow)
  | insertCategories (rows : List CategoryLinkRow)
  | insertActionPlans (rows : List ActionPlanRow)
  deriving Repr, DecidableEq

/-- Overall result of the create flow's `handleSubmit`. -/
inductive CreateOutcome where
  | blocked
  | failed (msg : String)
  | succeeded (reportId : String)
  deriving Repr, DecidableEq

/-- The `observation_details` row built by the create flow's insert, given
the store-assigned id. `supporting_image` is `imagePath || null`. -/
def buildObservationRow (f : CreateForm) (rid uid imagePath : String) : ObservationRow :=
  { id := rid
    project_id := f.project
    company_id := f.company
    submitter_name := f.submitterName
    date := f.date
    time := f.time
    department := f.department
    location := f.location
    description := f.description
    report_group := f.reportGroup
    consequences := f.consequences
    likelihood := f.likelihood
    status := f.status
    subject := f.subject
    corrective_action := decide (0 < f.actionPlans.length)
    supporting_image := if imagePath = "" then none else some imagePath
    created_by := uid
    created_at := "" }

/-- The `action_plans` rows of the create flow's batch insert (the payload
carries no supporting image). -/
def buildActionPlanRows (plans : List ActionPlanDraft) (rid uid : String) :
    List ActionPlanRow :=
  plans.map fun p =>
    { observation_id := rid
      action := p.action
      due_date := p.dueDate
      responsible_person := p.responsiblePerson
      follow_up_contact := p.followUpContact
      status := p.status
      supporting_image := none
      created_by := uid }

/-- The `observation_categories` rows of the create flow's batch insert. -/
def buildCategoryRows (cats : List String) (rid : String) : List CategoryLinkRow :=
  cats.map fun c => { observation_id := rid, category_id := c }

/-- Step 4 of the create submit: the `action_plans` batch insert, skipped
when no Action Plan is staged. -/
def createActionPlansStep (f : CreateForm) (env : CreateEnv) (rid uid : String)
    (db : DB) (tr : List WriteOp) : DB × List WriteOp × CreateOutcome :=
  if 0 < f.actionPlans.length then
    let rows := buildActionPlanRows f.actionPlans rid uid
    let tr' := tr ++ [WriteOp.insertActionPlans rows]
    match env.actionPlansResult with
    | Except.error _ => (db, tr', CreateOutcome.failed "Failed to save action plans")
    | Except.ok _ =>
        ({ db with action_plans := db.action_plans ++ rows }, tr',
         CreateOutcome.succeeded rid)
  else
    (db, tr, CreateOutcome.succeeded rid)

/-- Step 3 of the create submit: the `observation_categories` batch insert,
skipped when no category is selected; a failure throws, so the Action Plan
step is not reached. -/
def createCategoriesStep (f : CreateForm) (env : CreateEnv) (rid uid : String)
    (db : DB) (tr : List WriteOp) : DB × List WriteOp × CreateOutcome :=
  if 0 < f.selectedCategories.length then
    let rows := buildCategoryRows f.selectedCategories rid
    let tr' := tr ++ [WriteOp.insertCategories rows]
    match env.categoriesResult with
    | Except.error _ => (db, tr', CreateOutcome.failed "Failed to save categories")
    | Except.ok _ =>
        createActionPlansStep f env rid uid
          { db with observation_categories := db.observation_categories ++ rows } tr'
  else
    createActionPlansStep f env rid uid db tr

/-- The create flow's `handleSubmit`: validation gate, auth lookup, optional
image upload, Observation insert, then the dependent batch inserts, each
failure aborting the rest of the sequence. -/
def handleSubmitCreate (f : CreateForm) (env : CreateEnv) (db : DB) :
    DB × List WriteOp × CreateOutcome :=
  if (validateForm f).length ≠ 0 then
    (db, [], CreateOutcome.blocked)
  else
    match env.user with
    | none => (db, [], CreateOutcome.failed "User not authenticated")
    | some uid =>
      let uploadOps :=
        match f.imageFile with
        | none => []
        | some name =>
            [WriteOp.uploadImage "safety-images" (toString env.nowMs ++ "-" ++ name)]
      let imagePathR :=
        match f.imageFile with
        | none => Except.ok ""
        | some _ => env.uploadResult
      match imagePathR with
      | Except.error e => (db, uploadOps, CreateOutcome.failed e)
      | Except.ok imagePath =>
        match env.observationResult with
        | Except.error _ =>
            (db, uploadOps ++ [WriteOp.insertObservation
              (buildObservationRow f "" uid imagePath)],
             CreateOutcome.failed "Failed to save observation")
        | Except.ok none =>
            (db, uploadOps ++ [WriteOp.insertObservation
              (buildObservationRow f "" uid imagePath)],
             CreateOutcome.failed "No report data returned after save")
        | Except.ok (some rid) =>
            let row := buildObservationRow f rid uid imagePath
            let tr := uploadOps ++ [WriteOp.insertObservation row]
            createCategoriesStep f env rid uid
              { db with observation_details := db.observation_details ++ [row] } tr

/-! ## Edit flow (`ReportView`, mode = edit) -/

/-- The edit form's draft state at submit time. `priorSupportingImage` is
`report?.supporting_image || ''`, the starting value of `imagePath`. -/
structure EditForm where
  project : String
  company : String
  submitterName : String
  date : String
  time : String
  department : String
  location : String
  description : String
  reportGroup : String
  consequences : String
  likelihood : String
  status : String
  subject : String
  selectedCategories : List String
  imageFile : Option String
  priorSupportingImage : String
  deriving Repr, DecidableEq

/-- Outcomes of the remote calls made by the edit flow's `handleSubmit`. -/
structure EditEnv where
  nowMs : Nat
  user : Option String
  uploadResult : Except String String
  updateObservationResult : Except String Unit
  closeActionPlansResult : Except String Unit
  deleteCategoriesResult : Except String Unit
  insertCategoriesResult : Except String Unit
  deriving Repr

/-- Overall result of the edit flow's `handleSubmit`: an early return with
no toast (missing id or a validation failure), the catch branch, or the
success toast plus navigation. -/
inductive EditOutcome where
  | notSubmitted
  | failed (msg : String)
  | succeeded
  deriving Repr, DecidableEq

/-- The column values written by the edit flow's `observation_details`
update, applied to the matching row; columns the update does not mention
keep their stored values. -/
def applyEditUpdate (f : EditForm) (imagePath : String) (r : ObservationRow) :
    ObservationRow :=
  { r with
    project_id := f.project
    company_id := f.company
    submitter_name := f.submitterName
    date := f.date
    time := f.time
    department := f.department
    location := f.location
    description := f.description
    report_group := f.reportGroup
    consequences := f.consequences
    likelihood := f.likelihood
    status := f.status
    subject := f.subject
    supporting_image := some imagePath }

/-- The edit flow's required-field and value-domain validation (the checks
at the top of `ReportView.handleSubmit`). -/
def editFormValid (f : EditForm) : Bool :=
  decide (f.project ≠ "" ∧ f.company ≠ "" ∧ f.submitterName ≠ "" ∧ f.date ≠ "" ∧
    f.time ≠ "" ∧ f.location ≠ "" ∧ f.description ≠ "" ∧ f.reportGroup ≠ "" ∧
    f.consequences ≠ "" ∧ f.likelihood ≠ "" ∧ f.subject ≠ "" ∧
    f.subject ∈ ["SOSV : Safety Observation Site Visit", "SOP", "RES"] ∧
    f.reportGroup ∈ ["finding", "positive"] ∧
    f.consequences ∈ ["minor", "moderate", "major", "severe"] ∧
    f.likelihood ∈ ["unlikely", "possible", "likely", "very-likely"])

/-- Category replacement step of the edit submit: when at least one category
is selected, delete every link row of this Observation and insert one row
per selected category; skipped entirely for an empty selection. -/
def editCategoriesStep (id : String) (f : EditForm) (env : EditEnv) (db : DB) :
    DB × EditOutcome :=
  if 0 < f.selectedCategories.length then
    match env.deleteCategoriesResult with
    | Except.error _ => (db, EditOutcome.failed "Failed to update report")
    | Except.ok _ =>
      let db1 := { db with observation_categories :=
        db.observation_categories.filter fun l => !(l.observation_id == id) }
      match env.insertCategoriesResult with
      | Except.error _ => (db1, EditOutcome.failed "Failed to update report")
      | Except.ok _ =>
        ({ db1 with observation_categories :=
            db1.observation_categories ++ buildCategoryRows f.selectedCategories id },
         EditOutcome.succeeded)
  else
    (db, EditOutcome.succeeded)

/-- Cascade step of the edit submit: when the report is being closed, update
every `action_plans` row of this Observation to status closed. -/
def editCascadeStep (id : String) (f : EditForm) (env : EditEnv) (db : DB) :
    DB × EditOutcome :=
  if f.status = "closed" then
    match env.closeActionPlansResult with
    | Except.error _ => (db, EditOutcome.failed "Failed to update report")
    | Except.ok _ =>
      editCategoriesStep id f env
        { db with action_plans := db.action_plans.map fun p =>
            if p.observation_id = id then { p with status := "closed" } else p }
  else
    editCategoriesStep id f env db

/-- The edit flow's `handleSubmit`: guard on the route id, auth lookup,
validation, optional image upload, the Observation update, the
close-cascade over its Action Plans, then the category replacement. -/
def handleSubmitEdit (id : String) (f : EditForm) (env : EditEnv) (db : DB) :
    DB × EditOutcome :=
  if id = "" then (db, EditOutcome.notSubmitted)
  else
    match env.user with
    | none => (db, EditOutcome.failed "Failed to update report")
    | some _ =>
      if ¬ editFormValid f then (db, EditOutcome.notSubmitted)
      else
        let imagePathR :=
          match f.imageFile with
          | none => Except.ok f.priorSupportingImage
          | some _ => env.uploadResult
        match imagePathR with
        | Except.error _ => (db, EditOutcome.failed "Failed to update report")
        | Except.ok imagePath =>
          match env.updateObservationResult with
          | Except.error _ => (db, EditOutcome.failed "Failed to update report")
          | Except.ok _ =>
            editCascadeStep id f env
              { db with observation_details := db.observation_details.map fun r =>
                  if r.id = id then applyEditUpdate f imagePath r else r }

/-- An Action Plan row as held in the edit view's list state (interface
`ActionPlan` of `ReportView`: snake-cased fields, optional id). -/
structure EditActionPlan where
  id : Option String
  action : String
  due_date : String
  responsible_person : String
  follow_up_contact : String
  status : String
  supporting_image : String
  deriving Repr, DecidableEq

/-- `handleAddActionPlan` of the edit view: refuse with an error toast when
ten or more Action Plans are already listed, otherwise append a blank plan
carrying a fresh temporary id. -/
def handleAddActionPlan (plans : List EditActionPlan) (nowMs : Nat) :
    List EditActionPlan × Option String :=
  if plans.length ≥ 10 then
    (plans, some "Maximum of 10 action plans allowed per report")
  else
    (plans ++ [{ id := some ("temp-" ++ toString nowMs)
                 action := ""
                 due_date := ""
                 responsible_person := ""
                 follow_up_contact := ""
                 status := "open"
                 supporting_image := "" }], none)

/-! ## Reports table (`SafetyReportsTable`) -/

/-- The table's filter state. Empty strings mean "no filter", matching the
JavaScript falsiness guards before each query refinement. -/
structure FilterOptions where
  dateStart : String
  dateEnd : String
  status : String
  severity : String
  deriving Repr, DecidableEq

/-- The table's sort state: a column key and a direction. -/
structure SortConfig where
  key : String
  ascending : Bool
  deriving Repr, DecidableEq

/-- The column value the store orders by, for the sortable keys the table
offers (`date`, `consequences`, `status`, and the default `created_at`). -/
def colValue (key : String) (r : ObservationRow) : String :=
  if key = "id" then r.id
  else if key = "subject" then r.subject
  else if key = "submitter_name" then r.submitter_name
  else if key = "date" then r.date
  else if key = "description" then r.description
  else if key = "consequences" then r.consequences
  else if key = "status" then r.status
  else if key = "created_at" then r.created_at
  else ""

/-- Server-side filter application: the `gte`/`lte` date-range bounds and
the `eq` status and severity filters, each applied only when set. -/
def applyFilters (fl : FilterOptions) (rows : List ObservationRow) :
    List ObservationRow :=
  rows.filter fun r =>
    (fl.dateStart = "" ∨ fl.dateStart ≤ r.date) ∧
    (fl.dateEnd = "" ∨ r.date ≤ fl.dateEnd) ∧
    (fl.status = "" ∨ r.status = fl.status) ∧
    (fl.severity = "" ∨ r.consequences = fl.severity)

/-- Server-side ordering by the configured sort column and direction. -/
def sortRows (sc : SortConfig) (rows : List ObservationRow) :
    List ObservationRow :=
  rows.mergeSort fun a b =>
    if sc.ascending then colValue sc.key a ≤ colValue sc.key b
    else colValue sc.key b ≤ colValue sc.key a

/-- The fixed page size of the table. -/
def reportsPerPage : Nat := 10

/-- A row as held in the table's `reports` state after the load's transform:
the selected columns, the joined project and company names, and the nested
Action Plans. -/
structure TableReport where
  id : String
  subject : String
  submitter_name : String
  date : String
  description : String
  consequences : String
  status : String
  created_at : String
  project_name : String
  company_name : String
  action_plans : List ActionPlanRow
  deriving Repr, DecidableEq

/-- The per-row transform of `loadReports`: project the selected columns,
resolve the joined names, and attach the row's Action Plans. -/
def transformRow (projectName companyName : String → String)
    (plans : List ActionPlanRow) (r : ObservationRow) : TableReport :=
  { id := r.id
    subject := r.subject
    submitter_name := r.submitter_name
    date := r.date
    description := r.description
    consequences := r.consequences
    status := r.status
    created_at := r.created_at
    project_name := projectName r.project_id
    company_name := companyName r.company_id
    action_plans := plans.filter fun p => p.observation_id == r.id }

/-- The store client's response to the table's query: the requested
inclusive row range of the filtered, sorted result set, plus a row count
only when the select options asked for one — the client returns a null
count otherwise. -/
def runTableQuery (requestCount : Bool) (page : Nat) (fl : FilterOptions)
    (sc : SortConfig) (db : DB) : List ObservationRow × Option Nat :=
  let resultSet := sortRows sc (applyFilters fl db.observation_details)
  let start := (page - 1) * reportsPerPage
  let last := start + reportsPerPage - 1
  ((resultSet.drop start).take (last - start + 1),
   if requestCount then some resultSet.length else none)

/-- `loadReports`: build the filtered, sorted query and request the
inclusive row range `[(page-1)*10, (page-1)*10 + 9]`. The select passes no
count option, so the response count is null and the page count is computed
from `count || 0`. -/
def loadReports (page : Nat) (fl : FilterOptions) (sc : SortConfig)
    (projectName companyName : String → String) (db : DB) :
    List TableReport × Nat :=
  let response := runTableQuery false page fl sc db
  (response.1.map (transformRow projectName companyName db.action_plans),
   (response.2.getD 0 + reportsPerPage - 1) / reportsPerPage)

/-- One delete issued against the store by `confirmDelete`. -/
inductive DeleteOp where
  | deleteActionPlans (observationId : String)
  | deleteObservation (id : String)
  deriving Repr, DecidableEq

/-- Outcomes of the two delete calls of `confirmDelete`. -/
structure DeleteEnv where
  actionPlansDelete : Except String Unit
  observationDelete : Except String Unit
  deriving Repr

/-- Overall result of `confirmDelete`. -/
inductive DeleteOutcome where
  | noTarget
  | failed (msg : String)
  | succeeded
  deriving Repr, DecidableEq

/-- `confirmDelete`: guard on the selected row, delete the Observation's
Action Plan rows, then delete the Observation row itself. -/
def confirmDelete (reportToDelete : Option String) (env : DeleteEnv) (db : DB) :
    DB × List DeleteOp × DeleteOutcome :=
  match reportToDelete with
  | none => (db, [], DeleteOutcome.noTarget)
  | some rid =>
    match env.actionPlansDelete with
    | Except.error _ =>
        (db, [DeleteOp.deleteActionPlans rid],
         DeleteOutcome.failed "Failed to delete report")
    | Except.ok _ =>
      let db1 := { db with action_plans :=
        db.action_plans.filter fun p => !(p.observation_id == rid) }
      match env.observationDelete with
      | Except.error _ =>
          (db1, [DeleteOp.deleteActionPlans rid, DeleteOp.deleteObservation rid],
           DeleteOutcome.failed "Failed to delete report")
      | Except.ok _ =>
          ({ db1 with observation_details :=
              db1.observation_details.filter fun r => !(r.id == rid) },
           [DeleteOp.deleteActionPlans rid, DeleteOp.deleteObservation rid],
           DeleteOutcome.succeeded)

/-- One exported spreadsheet row, fields in the column order of
`exportToCSV` (the date columns go through the `PPP` date formatter). -/
structure ExportRow where
  reportId : String
  subjectCol : String
  submitter : String
  dateCol : String
  projectCol : String
  companyCol : String
  descriptionCol : String
  severity : String
  statusCol : String
  createdAtCol : String
  deriving Repr, DecidableEq

/-- `exportToCSV`: map the rows currently held in the table's `reports`
state to flat export rows. -/
def exportToCSV (formatPPP : String → String) (reports : List TableReport) :
    List ExportRow :=
  reports.map fun r =>
    { reportId := r.id
      subjectCol := r.subject
      submitter := r.submitter_name
      dateCol := formatPPP r.date
      projectCol := r.project_name
      companyCol := r.company_name
      descriptionCol := r.description
      severity := r.consequences
      statusCol := r.status
      createdAtCol := formatPPP r.created_at }

/-! ## PDF renderer image cache (`SafetyReportPDF`) -/

/-- A cached image: the converted embeddable value and the time the fetch
was recorded. -/
structure CacheEntry where
  url : String
  timestamp : Nat
  deriving Repr, DecidableEq

/-- The cache freshness window: five minutes in milliseconds. -/
def CACHE_TTL : Nat := 5 * 60 * 1000

/-- The module-scoped image cache, keyed by the original address. -/
abbrev ImageCache := List (String × CacheEntry)

/-- Lookup in the image cache (`imageCache.get`). -/
def cacheGet (c : ImageCache) (k : String) : Option CacheEntry :=
  (c.find? fun e => e.1 == k).map (·.2)

/-- Insert-or-overwrite in the image cache (`imageCache.set`). -/
def cacheSet (c : ImageCache) (k : String) (v : CacheEntry) : ImageCache :=
  (k, v) :: c.filter fun e => !(e.1 == k)

/-- The network and conversion collaborator of `loadImage`: whether a fetch
of an address succeeds, and the embeddable value the successful fetch's
body converts to. -/
structure FetchEnv where
  fetchOk : String → Bool
  fetchBody : String → String

/-- Result of one `loadImage` call: the resolved value (null on a failed
fetch), the cache afterwards, and how many fetches the call performed. -/
structure LoadImageResult where
  result : Option String
  cache : ImageCache
  fetchCount : Nat
  deriving Repr, DecidableEq

/-- The cache-miss path of `loadImage`: embedded data is returned as-is,
otherwise the address is resolved against the proper storage bucket,
fetched, converted, and recorded in the cache with the current time; a
failed fetch yields null. -/
def loadImageMiss (supabaseUrl : String) (env : FetchEnv) (now : Nat)
    (cache : ImageCache) (url : String) (isActionPlan : Bool) : LoadImageResult :=
  if url.startsWith "data:image" then ⟨some url, cache, 0⟩
  else
    let bucket := if isActionPlan then "action-plan-images" else "safety-images"
    let imageUrl :=
      if url.startsWith "http" then url
      else supabaseUrl ++ "/storage/v1/object/public/" ++ bucket ++ "/" ++ url
    if env.fetchOk imageUrl then
      let base64 := env.fetchBody imageUrl
      ⟨some base64, cacheSet cache url ⟨base64, now⟩, 1⟩
    else ⟨none, cache, 1⟩

/-- `loadImage` of the PDF renderer: serve from the cache while the entry
is younger than `CACHE_TTL`, otherwise fall through to the fetch path. -/
def loadImage (supabaseUrl : String) (env : FetchEnv) (now : Nat)
    (cache : ImageCache) (url : String) (isActionPlan : Bool) : LoadImageResult :=
  match cacheGet cache url with
  | some e =>
    if now - e.timestamp < CACHE_TTL then ⟨some e.url, cache, 0⟩
    else loadImageMiss supabaseUrl env now cache url isActionPlan
  | none => loadImageMiss supabaseUrl env now cache url isActionPlan

/-- A write that depends on an existing Observation row: a category-link
insert or an Action Plan insert. -/
def WriteOp.isDependent : WriteOp → Bool
  | WriteOp.insertCategories _ => true
  | WriteOp.insertActionPlans _ => true
  | _ => false

/-- Every row carried by the write references the given Observation id. -/
def WriteOp.refsObservation (rid : String) : WriteOp → Prop
  | WriteOp.insertCategories rows => ∀ l ∈ rows, l.observation_id = rid
  | WriteOp.insertActionPlans rows => ∀ p ∈ rows, p.observation_id = rid
  | _ => True

/-- How many Action Plan batch inserts a trace contains. -/
def actionPlanInsertCount (tr : List WriteOp) : Nat :=
  tr.countP fun op =>
    match op with
    | WriteOp.insertActionPlans _ => true
    | _ => false

/-! ## Concrete fixtures used to evaluate the operations -/

/-- A create-flow draft with every scalar field filled, one selected
category and two staged Action Plans. -/
def sampleCreateForm : CreateForm :=
  { project := "p1", company := "co1", submitterName := "Sam", date := "2026-01-05"
    time := "09:30", department := "ops", location := "site A"
    description := "spill near gate", reportGroup := "finding"
    consequences := "minor", likelihood := "possible", status := "open"
    subject := "SOP", actionPlanRequired := "yes"
    actionPlans :=
      [{ action := "clean", dueDate := "2026-01-10", responsiblePerson := "Ana"
         followUpContact := "Bob", status := "open" },
       { action := "fence", dueDate := "2026-01-12", responsiblePerson := "Cid"
         followUpContact := "Dee", status := "open" }]
    selectedCategories := ["c1"], imageFile := none }

/-- The same draft with the selected-category set emptied. -/
def sampleCreateFormNoCats : CreateForm :=
  { sampleCreateForm with selectedCategories := [], actionPlanRequired := "no" }

/-- A create-flow environment in which every remote call succeeds. -/
def sampleCreateEnvOk : CreateEnv :=
  { nowMs := 1000, user := some "u1", uploadResult := Except.ok "k.png"
    observationResult := Except.ok (some "r1")
    categoriesResult := Except.ok (), actionPlansResult := Except.ok () }

/-- A create-flow environment in which the Observation insert fails. -/
def sampleCreateEnvObsFail : CreateEnv :=
  { sampleCreateEnvOk with observationResult := Except.error "boom" }

/-- An edit-flow draft with valid field values, closing the report, with
one selected category. -/
def sampleEditForm : EditForm :=
  { project := "p1", company := "co1", submitterName := "Sam", date := "2026-01-05"
    time := "09:30", department := "ops", location := "site A"
    description := "spill near gate", reportGroup := "finding"
    consequences := "minor", likelihood := "possible", status := "closed"
    subject := "SOP", selectedCategories := ["c2"], imageFile := none
    priorSupportingImage := "" }

/-- The edit draft with the selected-category set emptied and the report
left open. -/
def sampleEditFormNoCats : EditForm :=
  { sampleEditForm with selectedCategories := [], status := "open" }

/-- An edit-flow environment in which every remote call succeeds. -/
def sampleEditEnvOk : EditEnv :=
  { nowMs := 1000, user := some "u1", uploadResult := Except.ok "k.png"
    updateObservationResult := Except.ok (), closeActionPlansResult := Except.ok ()
    deleteCategoriesResult := Except.ok (), insertCategoriesResult := Except.ok () }

/-- A stored Observation row with id `r1`. -/
def sampleObservationRow : ObservationRow :=
  { id := "r1", project_id := "p0", company_id := "co0", submitter_name := "Sam"
    date := "2026-01-01", time := "08:00", department := "ops"
    location := "site A", description := "old text", report_group := "finding"
    consequences := "minor", likelihood := "possible", status := "open"
    subject := "SOP", corrective_action := true, supporting_image := none
    created_by := "u1", created_at := "2026-01-01T08:00:00Z" }

/-- A store holding Observation `r1`, two of its Action Plans (one open,
one closed) and one category link. -/
def sampleDB : DB :=
  { observation_details := [sampleObservationRow]
    observation_categories := [{ observation_id := "r1", category_id := "c1" }]
    action_plans :=
      [{ observation_id := "r1", action := "clean", due_date := "2026-01-10"
         responsible_person := "Ana", follow_up_contact := "Bob"
         status := "open", supporting_image := none, created_by := "u1" },
       { observation_id := "r1", action := "fence", due_date := "2026-01-12"
         responsible_person := "Cid", follow_up_contact := "Dee"
         status := "closed", supporting_image := none, created_by := "u1" }] }

/-- A delete environment in which both deletes succeed. -/
def sampleDeleteEnvOk : DeleteEnv :=
  { actionPlansDelete := Except.ok (), observationDelete := Except.ok () }

/-- A list of ten Action Plans in the edit view's list state. -/
def tenEditPlans : List EditActionPlan :=
  (List.range 10).map fun i =>
    { id := some (toString i), action := "a", due_date := "2026-01-10"
      responsible_person := "Ana", follow_up_contact := "Bob"
      status := "open", supporting_image := "" }

/-- A loaded table row for Observation `r1`. -/
def sampleTableReport : TableReport :=
  { id := "r1", subject := "SOP", submitter_name := "Sam", date := "2026-01-01"
    description := "old text", consequences := "minor", status := "open"
    created_at := "2026-01-01T08:00:00Z", project_name := "North"
    company_name := "Acme", action_plans := [] }

/-- An empty filter set: no date bounds, no status, no severity. -/
def sampleFilters : FilterOptions :=
  { dateStart := "", dateEnd := "", status := "", severity := "" }

/-- The table's initial sort state: newest first. -/
def sampleSort : SortConfig := { key := "created_at", ascending := false }

/-- A fetch environment in which every fetch succeeds and converts to a
fixed embeddable value. -/
def sampleFetchEnv : FetchEnv :=
  { fetchOk := fun _ => true, fetchBody := fun u => "data:image/png;base64,AAA|" ++ u }

/-! ## Theorems -/

/-- Any incomplete draft leaves at least one entry in the error map. -/
lemma validateForm_ne_nil (f : CreateForm)
    (h : f.project = "" ∨ f.company = "" ∨ f.submitterName = "" ∨ f.date = "" ∨
      f.time = "" ∨ f.location = "" ∨ f.description = "" ∨ f.reportGroup = "" ∨
      f.consequences = "" ∨ f.likelihood = "" ∨ f.subject = "" ∨
      f.selectedCategories = [] ∨
      (f.actionPlanRequired = "yes" ∧ f.actionPlans = [])) :
    validateForm f ≠ [] := by
  intro hemp
  have hx : ∃ x, x ∈ validateForm f := by
    rcases h with h|h|h|h|h|h|h|h|h|h|h|h|⟨h1, h2⟩
    · exact ⟨("project", "Project is required"), by simp [validateForm, h]⟩
    · exact ⟨("company", "Company is required"), by simp [validateForm, h]⟩
    · exact ⟨("submitterName", "Submitter name is required"), by simp [validateForm, h]⟩
    · exact ⟨("date", "Date is required"), by simp [validateForm, h]⟩
    · exact ⟨("time", "Time is required"), by simp [validateForm, h]⟩
    · exact ⟨("location", "Location is required"), by simp [validateForm, h]⟩
    · exact ⟨("description", "Description is required"), by simp [validateForm, h]⟩
    · exact ⟨("reportGroup", "Report group is required"), by simp [validateForm, h]⟩
    · exact ⟨("consequences", "Consequences is required"), by simp [validateForm, h]⟩
    · exact ⟨("likelihood", "Likelihood is required"), by simp [validateForm, h]⟩
    · exact ⟨("subject", "Subject is required"), by simp [validateForm, h]⟩
    · exact ⟨("categories", "At least one safety category is required"),
        by simp [validateForm, h]⟩
    · exact ⟨("actionPlans", "At least one action plan is required"),
        by simp [validateForm, h1, h2]⟩
  rcases hx with ⟨x, hx⟩
  rw [hemp] at hx
  exact List.not_mem_nil x hx

/-- C3: for every draft in which one of the required scalar fields is
empty, or the selected-category set is empty, or an action plan is
required but none is staged, `validateForm` returns a non-empty violation
map and the create flow's submit performs no write and leaves the store
untouched. -/
theorem C3_validateForm_blocks_submission (f : CreateForm) (env : CreateEnv)
    (db : DB)
    (h : f.project = "" ∨ f.company = "" ∨ f.submitterName = "" ∨ f.date = "" ∨
      f.time = "" ∨ f.location = "" ∨ f.description = "" ∨ f.reportGroup = "" ∨
      f.consequences = "" ∨ f.likelihood = "" ∨ f.subject = "" ∨
      f.selectedCategories = [] ∨
      (f.actionPlanRequired = "yes" ∧ f.actionPlans = [])) :
    validateForm f ≠ [] ∧
    handleSubmitCreate f env db = (db, [], CreateOutcome.blocked) := by
  have hne := validateForm_ne_nil f h
  have hlen : (validateForm f).length ≠ 0 := by
    simpa [List.length_eq_zero] using hne
  exact ⟨hne, by simp [handleSubmitCreate, hlen]⟩

/-- C3 witness: a draft with every scalar field filled but an empty
selected-category set fails validation and is blocked. -/
theorem C3_validateForm_blocks_submission_witness :
    validateForm sampleCreateFormNoCats ≠ [] ∧
    handleSubmitCreate sampleCreateFormNoCats sampleCreateEnvOk DB.empty =
      (DB.empty, [], CreateOutcome.blocked) :=
  C3_validateForm_blocks_submission sampleCreateFormNoCats sampleCreateEnvOk
    DB.empty (by decide)

/-- C10: the edit view's add-action-plan operation refuses, with an error
toast, whenever ten Action Plans are already listed, and never grows the
list beyond ten entries. -/
theorem C10_addActionPlan_caps_at_ten (plans : List EditActionPlan) (nowMs : Nat) :
    (plans.length = 10 →
      handleAddActionPlan plans nowMs =
        (plans, some "Maximum of 10 action plans allowed per report")) ∧
    (plans.length ≤ 10 → (handleAddActionPlan plans nowMs).1.length ≤ 10) := by
  constructor
  · intro h
    simp [handleAddActionPlan, h]
  · intro h
    by_cases h10 : plans.length ≥ 10
    · simp [handleAddActionPlan, h10]
      omega
    · simp [handleAddActionPlan, h10]
      omega

/-- C10 witness: with exactly ten Action Plans listed, the operation
reports the limit error and the list stays at ten entries. -/
theorem C10_addActionPlan_caps_at_ten_witness :
    handleAddActionPlan tenEditPlans 7 =
      (tenEditPlans, some "Maximum of 10 action plans allowed per report") ∧
    (handleAddActionPlan tenEditPlans 7).1.length ≤ 10 := by
  refine ⟨(C10_addActionPlan_caps_at_ten tenEditPlans 7).1 (by decide),
    (C10_addActionPlan_caps_at_ten tenEditPlans 7).2 (by decide)⟩

/-- C9: every exported spreadsheet row's Severity and Status values are
exactly the source row's `consequences` and `status` fields, the export
has one row per table row currently loaded, and a loaded page never holds
more than the page size of rows, so the export covers only the current
page rather than the full filtered result set. -/
theorem C9_export_row_fidelity (formatPPP : String → String) :
    (∀ reports : List TableReport,
      (exportToCSV formatPPP reports).length = reports.length ∧
      ∀ i (h : i < reports.length),
        ((exportToCSV formatPPP reports).get
            ⟨i, by simpa [exportToCSV] using h⟩).severity =
          (reports.get ⟨i, h⟩).consequences ∧
        ((exportToCSV formatPPP reports).get
            ⟨i, by simpa [exportToCSV] using h⟩).statusCol =
          (reports.get ⟨i, h⟩).status) ∧
    (∀ k fl sc pn cn db,
      ((loadReports k fl sc pn cn db).1).length ≤ reportsPerPage) := by
  constructor
  · intro reports
    refine ⟨by simp [exportToCSV], ?_⟩
    intro i h
    simp [exportToCSV]
  · intro k fl sc pn cn db
    simp only [loadReports, runTableQuery, List.length_map, List.length_take,
      reportsPerPage]
    omega

/-- C9 witness: a concrete loaded page of one row exports one row whose
Severity and Status equal that row's consequences and status, and a
concrete load returns at most ten rows. -/
theorem C9_export_row_fidelity_witness :
    ((exportToCSV id [sampleTableReport]).get ⟨0, by simp [exportToCSV]⟩).severity =
      ([sampleTableReport].get ⟨0, by decide⟩).consequences ∧
    ((exportToCSV id [sampleTableReport]).get ⟨0, by simp [exportToCSV]⟩).statusCol =
      ([sampleTableReport].get ⟨0, by decide⟩).status ∧
    ((loadReports 1 sampleFilters sampleSort id id sampleDB).1).length ≤ reportsPerPage := by
  refine ⟨((C9_export_row_fidelity id).1 [sampleTableReport]).2 0 (by decide) |>.1,
    ((C9_export_row_fidelity id).1 [sampleTableReport]).2 0 (by decide) |>.2,
    (C9_export_row_fidelity id).2 1 sampleFilters sampleSort id id sampleDB⟩

/-- C5: the confirmed delete issues the Action Plan delete first, issues
the Observation delete only after the Action Plan delete succeeded, and on
overall success the store holds neither an Action Plan with the target
observation id nor the Observation row, so querying Action Plans by that
id returns the empty set. -/
theorem C5_confirmDelete_order_and_cleanup (rid : String) (env : DeleteEnv)
    (db db' : DB) (tr : List DeleteOp) (out : DeleteOutcome)
    (hrun : confirmDelete (some rid) env db = (db', tr, out)) :
    (tr = [DeleteOp.deleteActionPlans rid] ∨
     tr = [DeleteOp.deleteActionPlans rid, DeleteOp.deleteObservation rid]) ∧
    (∀ e, env.actionPlansDelete = Except.error e →
      tr = [DeleteOp.deleteActionPlans rid]) ∧
    (out = DeleteOutcome.succeeded →
      db'.action_plans.filter (fun p => p.observation_id == rid) = [] ∧
      db'.observation_details.filter (fun r => r.id == rid) = []) := by
  cases hap : env.actionPlansDelete with
  | error e =>
    simp [confirmDelete, hap] at hrun
    obtain ⟨h1, h2, h3⟩ := hrun
    refine ⟨Or.inl h2.symm, fun _ _ => h2.symm, ?_⟩
    intro hs
    rw [← h3] at hs
    exact absurd hs (by simp)
  | ok u =>
    cases hob : env.observationDelete with
    | error e =>
      simp [confirmDelete, hap, hob] at hrun
      obtain ⟨h1, h2, h3⟩ := hrun
      refine ⟨Or.inr h2.symm, ?_, ?_⟩
      · intro e' he'
        exact absurd he' (by simp)
      · intro hs
        rw [← h3] at hs
        exact absurd hs (by simp)
    | ok v =>
      simp [confirmDelete, hap, hob] at hrun
      obtain ⟨h1, h2, h3⟩ := hrun
      refine ⟨Or.inr h2.symm, ?_, ?_⟩
      · intro e' he'
        exact absurd he' (by simp)
      · intro _
        subst h1
        constructor
        · simp [List.filter_filter]
        · simp [List.filter_filter]

/-- C5 witness: deleting Observation `r1` from the sample store issues the
two deletes in order and leaves no Action Plan with observation id `r1`. -/
theorem C5_confirmDelete_order_and_cleanup_witness :
    ((confirmDelete (some "r1") sampleDeleteEnvOk sampleDB).2.1 =
        [DeleteOp.deleteActionPlans "r1"] ∨
     (confirmDelete (some "r1") sampleDeleteEnvOk sampleDB).2.1 =
        [DeleteOp.deleteActionPlans "r1", DeleteOp.deleteObservation "r1"]) ∧
    ((confirmDelete (some "r1") sampleDeleteEnvOk sampleDB).1.action_plans.filter
        (fun p => p.observation_id == "r1") = [] ∧
     (confirmDelete (some "r1") sampleDeleteEnvOk sampleDB).1.observation_details.filter
        (fun r => r.id == "r1") = []) := by
  have h := C5_confirmDelete_order_and_cleanup "r1" sampleDeleteEnvOk sampleDB
    (confirmDelete (some "r1") sampleDeleteEnvOk sampleDB).1
    (confirmDelete (some "r1") sampleDeleteEnvOk sampleDB).2.1
    (confirmDelete (some "r1") sampleDeleteEnvOk sampleDB).2.2 rfl
  exact ⟨h.1, h.2.2 (by decide)⟩

/-- The category-replacement step never touches the `action_plans` table. -/
lemma editCategoriesStep_action_plans (id : String) (f : EditForm)
    (env : EditEnv) (db : DB) :
    ((editCategoriesStep id f env db).1).action_plans = db.action_plans := by
  unfold editCategoriesStep
  split
  · cases env.deleteCategoriesResult with
    | error e => rfl
    | ok u =>
      cases env.insertCategoriesResult with
      | error e => rfl
      | ok v => rfl
  · rfl

/-- On a successful run, the category-replacement step replaces this
Observation's links wholesale when a category is selected and leaves the
table untouched when none is. -/
lemma editCategoriesStep_characterization (id : String) (f : EditForm)
    (env : EditEnv) (db db' : DB) (out : EditOutcome)
    (h : editCategoriesStep id f env db = (db', out))
    (hs : out = EditOutcome.succeeded) :
    (f.selectedCategories ≠ [] →
      db'.observation_categories =
        db.observation_categories.filter (fun l => !(l.observation_id == id)) ++
          buildCategoryRows f.selectedCategories id) ∧
    (f.selectedCategories = [] →
      db'.observation_categories = db.observation_categories) := by
  subst hs
  by_cases hne : 0 < f.selectedCategories.length
  · cases hd : env.deleteCategoriesResult with
    | error e => simp [editCategoriesStep, hne, hd] at h
    | ok u =>
      cases hi : env.insertCategoriesResult with
      | error e => simp [editCategoriesStep, hne, hd, hi] at h
      | ok v =>
        simp [editCategoriesStep, hne, hd, hi] at h
        refine ⟨fun _ => ?_, fun hemp => by rw [hemp] at hne; simp at hne⟩
        rw [← h]
  · have hemp : f.selectedCategories = [] := by
      cases hsel : f.selectedCategories with
      | nil => rfl
      | cons a l => rw [hsel] at hne; simp at hne
    simp [editCategoriesStep, hne] at h
    exact ⟨fun hne2 => absurd hemp hne2, fun _ => by rw [← h]⟩

/-- On a successful run, the cascade step closes every linked Action Plan
when the report is being closed and leaves the `action_plans` table
untouched otherwise, and it never touches the links table. -/
lemma editCascadeStep_characterization (id : String) (f : EditForm)
    (env : EditEnv) (db db' : DB) (out : EditOutcome)
    (h : editCascadeStep id f env db = (db', out))
    (hs : out = EditOutcome.succeeded) :
    (f.status = "closed" →
      db'.action_plans = db.action_plans.map fun p =>
        if p.observation_id = id then { p with status := "closed" } else p) ∧
    (f.status ≠ "closed" → db'.action_plans = db.action_plans) ∧
    (∃ db₀ : DB, db₀.observation_categories = db.observation_categories ∧
      editCategoriesStep id f env db₀ = (db', out)) := by
  by_cases hc : f.status = "closed"
  · cases hcl : env.closeActionPlansResult with
    | error e =>
      subst hs
      simp [editCascadeStep, hc, hcl] at h
    | ok u =>
      rw [show editCascadeStep id f env db =
          editCategoriesStep id f env
            { db with action_plans := db.action_plans.map fun p =>
                if p.observation_id = id then { p with status := "closed" } else p }
        from by simp [editCascadeStep, hc, hcl]] at h
      refine ⟨fun _ => ?_, fun hno => absurd hc hno,
        ⟨{ db with action_plans := db.action_plans.map fun p =>
            if p.observation_id = id then { p with status := "closed" } else p },
         rfl, h⟩⟩
      have := editCategoriesStep_action_plans id f env
        { db with action_plans := db.action_plans.map fun p =>
            if p.observation_id = id then { p with status := "closed" } else p }
      rw [h] at this
      exact this
  · rw [show editCascadeStep id f env db = editCategoriesStep id f env db
      from by simp [editCascadeStep, hc]] at h
    refine ⟨fun hyes => absurd hyes hc, fun _ => ?_, ⟨_, rfl, h⟩⟩
    have := editCategoriesStep_action_plans id f env db
    rw [h] at this
    exact this

/-- On a successful edit submit the control flow reached the cascade step,
applied to the store with only the Observation row updated. -/
lemma handleSubmitEdit_success_shape (id : String) (f : EditForm)
    (env : EditEnv) (db db' : DB) (out : EditOutcome)
    (hrun : handleSubmitEdit id f env db = (db', out))
    (hs : out = EditOutcome.succeeded) :
    ∃ imagePath,
      editCascadeStep id f env
        { db with observation_details := db.observation_details.map fun r =>
            if r.id = id then applyEditUpdate f imagePath r else r } = (db', out) := by
  subst hs
  by_cases hid : id = ""
  · simp [handleSubmitEdit, hid] at hrun
  · cases hu : env.user with
    | none => simp [handleSubmitEdit, hid, hu] at hrun
    | some uid =>
      by_cases hv : editFormValid f = true
      · cases hf : f.imageFile with
        | none =>
          cases hup : env.updateObservationResult with
          | error e => simp [handleSubmitEdit, hid, hu, hv, hf, hup] at hrun
          | ok u =>
            rw [show handleSubmitEdit id f env db =
                editCascadeStep id f env
                  { db with observation_details := db.observation_details.map fun r =>
                      if r.id = id then applyEditUpdate f f.priorSupportingImage r else r }
              from by simp [handleSubmitEdit, hid, hu, hv, hf, hup]] at hrun
            exact ⟨f.priorSupportingImage, hrun⟩
        | some name =>
          cases hupl : env.uploadResult with
          | error e => simp [handleSubmitEdit, hid, hu, hv, hf, hupl] at hrun
          | ok path =>
            cases hup : env.updateObservationResult with
            | error e => simp [handleSubmitEdit, hid, hu, hv, hf, hupl, hup] at hrun
            | ok u =>
              rw [show handleSubmitEdit id f env db =
                  editCascadeStep id f env
                    { db with observation_details := db.observation_details.map fun r =>
                        if r.id = id then applyEditUpdate f path r else r }
                from by simp [handleSubmitEdit, hid, hu, hv, hf, hupl, hup]] at hrun
              exact ⟨path, hrun⟩
      · simp only [Bool.not_eq_true] at hv
        simp [handleSubmitEdit, hid, hu, hv] at hrun

/-- C4: on a successful edit submit that closes the Observation, every
Action Plan row linked to it ends with status closed; a submit that leaves
or sets the Observation open does not change the `action_plans` table at
all. -/
theorem C4_close_cascades_to_action_plans (id : String) (f : EditForm)
    (env : EditEnv) (db db' : DB) (out : EditOutcome)
    (hrun : handleSubmitEdit id f env db = (db', out))
    (hs : out = EditOutcome.succeeded) :
    (f.status = "closed" →
      ∀ p ∈ db'.action_plans, p.observation_id = id → p.status = "closed") ∧
    (f.status = "open" → db'.action_plans = db.action_plans) := by
  obtain ⟨imagePath, hstep⟩ := handleSubmitEdit_success_shape id f env db db' out hrun hs
  have hchar := editCascadeStep_characterization id f env _ db' out hstep hs
  constructor
  · intro hc p hp hpid
    rw [hchar.1 hc] at hp
    simp only [List.mem_map] at hp
    obtain ⟨q, hq, rfl⟩ := hp
    by_cases hqid : q.observation_id = id
    · simp [hqid]
    · simp only [if_neg hqid] at hpid ⊢
      exact absurd hpid hqid
  · intro hopen
    have := hchar.2.1 (by rw [hopen]; decide)
    simpa using this

/-- C4 witness: closing sample Observation `r1` leaves its first stored
Action Plan (open beforehand) with status closed. -/
theorem C4_close_cascades_to_action_plans_witness :
    sampleEditForm.status = "closed" ∧
    ((handleSubmitEdit "r1" sampleEditForm sampleEditEnvOk sampleDB).1.action_plans.get
      ⟨0, by decide⟩).status = "closed" := by
  refine ⟨rfl, ?_⟩
  have h := (C4_close_cascades_to_action_plans "r1" sampleEditForm sampleEditEnvOk
    sampleDB (handleSubmitEdit "r1" sampleEditForm sampleEditEnvOk sampleDB).1
    (handleSubmitEdit "r1" sampleEditForm sampleEditEnvOk sampleDB).2 rfl
    (by decide)).1 rfl
  exact h _ (by decide) (by decide)

/-- Every built category-link row carries the Observation's id. -/
lemma buildCategoryRows_filter (sel : List String) (id : String) :
    (buildCategoryRows sel id).filter (fun l => l.observation_id == id) =
      buildCategoryRows sel id := by
  apply List.filter_eq_self.mpr
  intro l hl
  simp only [buildCategoryRows, List.mem_map] at hl
  obtain ⟨c, _, rfl⟩ := hl
  simp

/-- The built category-link rows list the selected category ids in order. -/
lemma buildCategoryRows_map (sel : List String) (id : String) :
    (buildCategoryRows sel id).map (fun l => l.category_id) = sel := by
  have : ((fun l : CategoryLinkRow => l.category_id) ∘
      fun c => ({ observation_id := id, category_id := c } : CategoryLinkRow)) =
      fun c : String => c := rfl
  simp [buildCategoryRows, List.map_map, this]

/-- C8 counterexample: a successful edit submit of Observation `r1` with an
empty selected-category set leaves the existing link to `c1` in place, so
the linked-category set does not equal the (empty) selected set — the
wholesale replacement is skipped for the empty selection. -/
theorem C8_counterexample_empty_selection :
    (handleSubmitEdit "r1" sampleEditFormNoCats sampleEditEnvOk sampleDB).2 =
      EditOutcome.succeeded ∧
    sampleEditFormNoCats.selectedCategories = [] ∧
    ((handleSubmitEdit "r1" sampleEditFormNoCats sampleEditEnvOk
        sampleDB).1.observation_categories.filter
          (fun l => l.observation_id == "r1")).map (fun l => l.category_id) =
      ["c1"] := by
  refine ⟨by decide, rfl, by decide⟩

/-- C8 (amended): on a successful edit submit with a non-empty
selected-category set, the Observation's links are replaced wholesale so
that the linked-category list equals the selected list; with an empty
selected set the replacement step is skipped and the links table is left
unchanged. -/
theorem C8_category_links_replaced_wholesale (id : String) (f : EditForm)
    (env : EditEnv) (db db' : DB) (out : EditOutcome)
    (hrun : handleSubmitEdit id f env db = (db', out))
    (hs : out = EditOutcome.succeeded) :
    (f.selectedCategories ≠ [] →
      (db'.observation_categories.filter
        (fun l => l.observation_id == id)).map (fun l => l.category_id) =
        f.selectedCategories) ∧
    (f.selectedCategories = [] →
      db'.observation_categories = db.observation_categories) := by
  obtain ⟨imagePath, hstep⟩ := handleSubmitEdit_success_shape id f env db db' out hrun hs
  obtain ⟨db₀, hcats, hcstep⟩ :=
    (editCascadeStep_characterization id f env _ db' out hstep hs).2.2
  have hchar := editCategoriesStep_characterization id f env db₀ db' out hcstep hs
  constructor
  · intro hne
    have h1 : List.filter (fun l => l.observation_id == id)
        (List.filter (fun l => !(l.observation_id == id))
          db₀.observation_categories) = [] := by
      rw [List.filter_filter]
      apply List.filter_eq_nil_iff.mpr
      intro l _
      cases hl : l.observation_id == id <;> simp [hl]
    rw [hchar.1 hne, List.filter_append, h1, List.nil_append,
      buildCategoryRows_filter, buildCategoryRows_map]
  · intro hemp
    rw [hchar.2 hemp, hcats]

/-- C8 (amended) witness: a successful edit of `r1` selecting exactly
category `c2` leaves `r1` linked to exactly `c2`. -/
theorem C8_category_links_replaced_wholesale_witness :
    ((handleSubmitEdit "r1" sampleEditForm sampleEditEnvOk
        sampleDB).1.observation_categories.filter
          (fun l => l.observation_id == "r1")).map (fun l => l.category_id) =
      ["c2"] := by
  have h := (C8_category_links_replaced_wholesale "r1" sampleEditForm
    sampleEditEnvOk sampleDB
    (handleSubmitEdit "r1" sampleEditForm sampleEditEnvOk sampleDB).1
    (handleSubmitEdit "r1" sampleEditForm sampleEditEnvOk sampleDB).2
    rfl (by decide)).1 (by decide)
  exact h

/-- C6: the table's select never requests a row count, so the store
client's response count is null and the computed total-page count is zero
for every query; at the concrete failing input the filtered, sorted result
set holds one matching row, whose claimed ceiling page count is one, yet
the load reports zero pages. The requested row window itself is the
claimed half-open window `[(k-1)*10, k*10)`. -/
theorem C6_total_pages_reported_zero :
    (∀ (k : Nat) (fl : FilterOptions) (sc : SortConfig)
        (pn cn : String → String) (db : DB),
      (loadReports k fl sc pn cn db).2 = 0) ∧
    (sortRows sampleSort
      (applyFilters sampleFilters sampleDB.observation_details)).length = 1 ∧
    ⌈((sortRows sampleSort
        (applyFilters sampleFilters sampleDB.observation_details)).length : ℚ) /
      (reportsPerPage : ℚ)⌉ = 1 := by
  have hlen : (sortRows sampleSort
      (applyFilters sampleFilters sampleDB.observation_details)).length = 1 := by
    simp only [sortRows, List.length_mergeSort]
    decide
  refine ⟨fun k fl sc pn cn db => by simp [loadReports, runTableQuery, reportsPerPage], hlen, ?_⟩
  rw [hlen]
  rw [show ((reportsPerPage : ℕ) : ℚ) = 10 from by norm_num [reportsPerPage]]
  simp only [Nat.cast_one]
  rw [Int.ceil_eq_iff]
  constructor <;> norm_num

/-- A `loadImage` call that performed a fetch and returned a value recorded
that value in the cache under the original address with the call's time,
and the address is not an embedded data literal. -/
lemma loadImage_fetch_success (su : String) (env : FetchEnv) (t0 : Nat)
    (cache c0 : ImageCache) (url v : String) (iap : Bool)
    (h : loadImage su env t0 cache url iap = ⟨some v, c0, 1⟩) :
    c0 = cacheSet cache url ⟨v, t0⟩ ∧ url.startsWith "data:image" = false := by
  have hmiss : ∀ c : ImageCache,
      loadImageMiss su env t0 c url iap = ⟨some v, c0, 1⟩ →
      c0 = cacheSet c url ⟨v, t0⟩ ∧ url.startsWith "data:image" = false := by
    intro c hm
    by_cases hds : url.startsWith "data:image" = true
    · simp [loadImageMiss, hds] at hm
    · simp only [Bool.not_eq_true] at hds
      by_cases hok : env.fetchOk (if url.startsWith "http" then url
          else su ++ "/storage/v1/object/public/" ++
            (if iap then "action-plan-images" else "safety-images") ++ "/" ++ url) = true
      · simp [loadImageMiss, hds, hok] at hm
        exact ⟨by rw [← hm.2, hm.1], hds⟩
      · simp only [Bool.not_eq_true] at hok
        simp [loadImageMiss, hds, hok] at hm
  cases hg : cacheGet cache url with
  | none =>
    rw [show loadImage su env t0 cache url iap =
        loadImageMiss su env t0 cache url iap from by simp [loadImage, hg]] at h
    exact hmiss cache h
  | some e =>
    by_cases hfresh : t0 - e.timestamp < CACHE_TTL
    · rw [show loadImage su env t0 cache url iap = ⟨some e.url, cache, 0⟩ from by
        simp [loadImage, hg, hfresh]] at h
      exact absurd (congrArg LoadImageResult.fetchCount h) (by simp)
    · rw [show loadImage su env t0 cache url iap =
          loadImageMiss su env t0 cache url iap from by simp [loadImage, hg, hfresh]] at h
      exact hmiss cache h

/-- C7: after a `loadImage` call fetched and converted an address at time
`t0`, a later request for the same address strictly within the five-minute
window returns the cached converted value without fetching, while a
request five minutes or more after the recorded timestamp performs a fresh
fetch. -/
theorem C7_image_cache_ttl (su : String) (env env2 : FetchEnv) (t0 t1 : Nat)
    (cache c0 : ImageCache) (url v : String) (iap iap2 : Bool)
    (h1 : loadImage su env t0 cache url iap = ⟨some v, c0, 1⟩) :
    (t1 - t0 < CACHE_TTL →
      loadImage su env2 t1 c0 url iap2 = ⟨some v, c0, 0⟩) ∧
    (CACHE_TTL ≤ t1 - t0 →
      (loadImage su env2 t1 c0 url iap2).fetchCount = 1) := by
  obtain ⟨hc0, hds⟩ := loadImage_fetch_success su env t0 cache c0 url v iap h1
  have hget : cacheGet c0 url = some ⟨v, t0⟩ := by
    rw [hc0]
    simp [cacheGet, cacheSet]
  constructor
  · intro hlt
    simp [loadImage, hget, hlt]
  · intro hge
    have hnlt : ¬ (t1 - t0 < CACHE_TTL) := not_lt.mpr hge
    simp only [loadImage, hget, if_neg hnlt]
    by_cases hok : env2.fetchOk (if url.startsWith "http" then url
        else su ++ "/storage/v1/object/public/" ++
          (if iap2 then "action-plan-images" else "safety-images") ++ "/" ++ url) = true
    · simp [loadImageMiss, hds, hok]
    · simp only [Bool.not_eq_true] at hok
      simp [loadImageMiss, hds, hok]

/-- C7 witness: a concrete fetched and cached image is served from the
cache when re-requested just inside the window and re-fetched at exactly
five minutes. -/
theorem C7_image_cache_ttl_witness :
    loadImage "https://x.example" sampleFetchEnv 299999
        (cacheSet [] "k"
          ⟨"data:image/png;base64,AAA|https://x.example/storage/v1/object/public/safety-images/k", 0⟩)
        "k" false =
      ⟨some "data:image/png;base64,AAA|https://x.example/storage/v1/object/public/safety-images/k",
        cacheSet [] "k"
          ⟨"data:image/png;base64,AAA|https://x.example/storage/v1/object/public/safety-images/k", 0⟩,
        0⟩ ∧
    (loadImage "https://x.example" sampleFetchEnv 300000
        (cacheSet [] "k"
          ⟨"data:image/png;base64,AAA|https://x.example/storage/v1/object/public/safety-images/k", 0⟩)
        "k" false).fetchCount = 1 := by
  have h := C7_image_cache_ttl "https://x.example" sampleFetchEnv sampleFetchEnv 0 299999
    [] (cacheSet [] "k"
      ⟨"data:image/png;base64,AAA|https://x.example/storage/v1/object/public/safety-images/k", 0⟩)
    "k" "data:image/png;base64,AAA|https://x.example/storage/v1/object/public/safety-images/k"
    false false (by decide)
  have h2 := C7_image_cache_ttl "https://x.example" sampleFetchEnv sampleFetchEnv 0 300000
    [] (cacheSet [] "k"
      ⟨"data:image/png;base64,AAA|https://x.example/storage/v1/object/public/safety-images/k", 0⟩)
    "k" "data:image/png;base64,AAA|https://x.example/storage/v1/object/public/safety-images/k"
    false false (by decide)
  exact ⟨h.1 (by decide), h2.2 (by decide)⟩

/-- Every Action Plan row built for the batch insert references the new
Observation id. -/
lemma buildActionPlanRows_refs (plans : List ActionPlanDraft) (rid uid : String) :
    ∀ p ∈ buildActionPlanRows plans rid uid, p.observation_id = rid := by
  intro p hp
  simp only [buildActionPlanRows, List.mem_map] at hp
  obtain ⟨q, _, rfl⟩ := hp
  rfl

/-- Every category-link row built for the batch insert references the new
Observation id. -/
lemma buildCategoryRows_refs (cats : List String) (rid : String) :
    ∀ l ∈ buildCategoryRows cats rid, l.observation_id = rid := by
  intro l hl
  simp only [buildCategoryRows, List.mem_map] at hl
  obtain ⟨c, _, rfl⟩ := hl
  rfl

/-- The Action Plan step only appends dependent writes referencing the new
Observation id to the trace. -/
lemma createActionPlansStep_ext (f : CreateForm) (env : CreateEnv)
    (rid uid : String) (db : DB) (tr : List WriteOp) :
    ∃ ext, (createActionPlansStep f env rid uid db tr).2.1 = tr ++ ext ∧
      ∀ op ∈ ext, op.isDependent = true ∧ WriteOp.refsObservation rid op := by
  by_cases hp : 0 < f.actionPlans.length
  · refine ⟨[WriteOp.insertActionPlans (buildActionPlanRows f.actionPlans rid uid)],
      ?_, ?_⟩
    · cases har : env.actionPlansResult with
      | error e => simp [createActionPlansStep, hp, har]
      | ok u => simp [createActionPlansStep, hp, har]
    · intro op hop
      simp only [List.mem_singleton] at hop
      subst hop
      exact ⟨rfl, buildActionPlanRows_refs f.actionPlans rid uid⟩
  · exact ⟨[], by simp [createActionPlansStep, hp], by simp⟩

/-- The categories step and the Action Plan step after it only append
dependent writes referencing the new Observation id to the trace. -/
lemma createCategoriesStep_ext (f : CreateForm) (env : CreateEnv)
    (rid uid : String) (db : DB) (tr : List WriteOp) :
    ∃ ext, (createCategoriesStep f env rid uid db tr).2.1 = tr ++ ext ∧
      ∀ op ∈ ext, op.isDependent = true ∧ WriteOp.refsObservation rid op := by
  by_cases hc : 0 < f.selectedCategories.length
  · cases hcr : env.categoriesResult with
    | error e =>
      refine ⟨[WriteOp.insertCategories (buildCategoryRows f.selectedCategories rid)],
        by simp [createCategoriesStep, hc, hcr], ?_⟩
      intro op hop
      simp only [List.mem_singleton] at hop
      subst hop
      exact ⟨rfl, buildCategoryRows_refs f.selectedCategories rid⟩
    | ok u =>
      obtain ⟨ext2, he2, hall2⟩ := createActionPlansStep_ext f env rid uid
        { db with observation_categories := db.observation_categories ++
            buildCategoryRows f.selectedCategories rid }
        (tr ++ [WriteOp.insertCategories (buildCategoryRows f.selectedCategories rid)])
      refine ⟨WriteOp.insertCategories (buildCategoryRows f.selectedCategories rid) :: ext2,
        ?_, ?_⟩
      · rw [show (createCategoriesStep f env rid uid db tr).2.1 =
            (createActionPlansStep f env rid uid
              { db with observation_categories := db.observation_categories ++
                  buildCategoryRows f.selectedCategories rid }
              (tr ++ [WriteOp.insertCategories
                (buildCategoryRows f.selectedCategories rid)])).2.1
          from by simp [createCategoriesStep, hc, hcr]]
        rw [he2, List.append_assoc]
        rfl
      · intro op hop
        rcases List.mem_cons.mp hop with h | h
        · subst h
          exact ⟨rfl, buildCategoryRows_refs f.selectedCategories rid⟩
        · exact hall2 op h
  · obtain ⟨ext, he, hall⟩ := createActionPlansStep_ext f env rid uid db tr
    exact ⟨ext, by rw [show (createCategoriesStep f env rid uid db tr).2.1 =
        (createActionPlansStep f env rid uid db tr).2.1
      from by simp [createCategoriesStep, hc]]; exact he, hall⟩

/-- C1: in the create flow's submit, dependent writes (category links and
Action Plans) appear in the trace only strictly after the Observation
insert, only when the Observation insert succeeded with a fresh id, and
every row they carry references that id; when the Observation write fails
no dependent write is attempted at all. -/
theorem C1_observation_created_before_dependents (f : CreateForm)
    (env : CreateEnv) (db db' : DB) (tr : List WriteOp) (out : CreateOutcome)
    (hrun : handleSubmitCreate f env db = (db', tr, out)) :
    (∀ e, env.observationResult = Except.error e →
      ∀ op ∈ tr, op.isDependent = false) ∧
    (∀ op ∈ tr, op.isDependent = true →
      ∃ pre mid rid row, tr = pre ++ WriteOp.insertObservation row :: mid ∧
        (∀ op2 ∈ pre, op2.isDependent = false) ∧
        env.observationResult = Except.ok (some rid) ∧ row.id = rid ∧
        op ∈ mid ∧ WriteOp.refsObservation rid op) := by
  by_cases hval : (validateForm f).length ≠ 0
  · simp [handleSubmitCreate, hval] at hrun
    obtain ⟨-, htr, -⟩ := hrun
    subst htr
    simp
  · cases hu : env.user with
    | none =>
      simp [handleSubmitCreate, hval, hu] at hrun
      obtain ⟨-, htr, -⟩ := hrun
      subst htr
      simp
    | some uid =>
      cases hf : f.imageFile with
      | none =>
        cases hobs : env.observationResult with
        | error e =>
          simp [handleSubmitCreate, hval, hu, hf, hobs] at hrun
          obtain ⟨-, htr, -⟩ := hrun
          subst htr
          refine ⟨fun _ _ op hop => ?_, fun op hop hdep => ?_⟩
          · simp only [List.mem_singleton] at hop
            subst hop; rfl
          · simp only [List.mem_singleton] at hop
            subst hop; simp [WriteOp.isDependent] at hdep
        | ok osr =>
          cases osr with
          | none =>
            simp [handleSubmitCreate, hval, hu, hf, hobs] at hrun
            obtain ⟨-, htr, -⟩ := hrun
            subst htr
            refine ⟨fun e he => absurd he (by simp), fun op hop hdep => ?_⟩
            simp only [List.mem_singleton] at hop
            subst hop; simp [WriteOp.isDependent] at hdep
          | some rid =>
            rw [show handleSubmitCreate f env db =
                createCategoriesStep f env rid uid
                  { db with observation_details := db.observation_details ++
                      [buildObservationRow f rid uid ""] }
                  [WriteOp.insertObservation (buildObservationRow f rid uid "")]
              from by simp [handleSubmitCreate, hval, hu, hf, hobs]] at hrun
            obtain ⟨ext, he, hall⟩ := createCategoriesStep_ext f env rid uid
              { db with observation_details := db.observation_details ++
                  [buildObservationRow f rid uid ""] }
              [WriteOp.insertObservation (buildObservationRow f rid uid "")]
            rw [hrun] at he
            replace he : tr = WriteOp.insertObservation (buildObservationRow f rid uid "") :: ext := he
            refine ⟨fun e he2 => absurd he2 (by simp), fun op hop hdep => ?_⟩
            refine ⟨[], ext, rid, buildObservationRow f rid uid "", he, by simp,
              rfl, rfl, ?_, ?_⟩
            · rw [he] at hop
              rcases List.mem_cons.mp hop with h | h
              · subst h; simp [WriteOp.isDependent] at hdep
              · exact h
            · rw [he] at hop
              rcases List.mem_cons.mp hop with h | h
              · subst h; simp [WriteOp.isDependent] at hdep
              · exact (hall op h).2
      | some name =>
        cases hup : env.uploadResult with
        | error e =>
          simp [handleSubmitCreate, hval, hu, hf, hup] at hrun
          obtain ⟨-, htr, -⟩ := hrun
          subst htr
          refine ⟨fun _ _ op hop => ?_, fun op hop hdep => ?_⟩
          · simp only [List.mem_singleton] at hop
            subst hop; rfl
          · simp only [List.mem_singleton] at hop
            subst hop; simp [WriteOp.isDependent] at hdep
        | ok path =>
          cases hobs : env.observationResult with
          | error e =>
            simp [handleSubmitCreate, hval, hu, hf, hup, hobs] at hrun
            obtain ⟨-, htr, -⟩ := hrun
            subst htr
            refine ⟨fun _ _ op hop => ?_, fun op hop hdep => ?_⟩
            · rcases List.mem_cons.mp hop with h | h
              · subst h; rfl
              · simp only [List.mem_singleton] at h; subst h; rfl
            · rcases List.mem_cons.mp hop with h | h
              · subst h; simp [WriteOp.isDependent] at hdep
              · simp only [List.mem_singleton] at h
                subst h; simp [WriteOp.isDependent] at hdep
          | ok osr =>
            cases osr with
            | none =>
              simp [handleSubmitCreate, hval, hu, hf, hup, hobs] at hrun
              obtain ⟨-, htr, -⟩ := hrun
              subst htr
              refine ⟨fun e he => absurd he (by simp), fun op hop hdep => ?_⟩
              rcases List.mem_cons.mp hop with h | h
              · subst h; simp [WriteOp.isDependent] at hdep
              · simp only [List.mem_singleton] at h
                subst h; simp [WriteOp.isDependent] at hdep
            | some rid =>
              rw [show handleSubmitCreate f env db =
                  createCategoriesStep f env rid uid
                    { db with observation_details := db.observation_details ++
                        [buildObservationRow f rid uid path] }
                    [WriteOp.uploadImage "safety-images"
                        (toString env.nowMs ++ "-" ++ name),
                      WriteOp.insertObservation (buildObservationRow f rid uid path)]
                from by simp [handleSubmitCreate, hval, hu, hf, hup, hobs]] at hrun
              obtain ⟨ext, he, hall⟩ := createCategoriesStep_ext f env rid uid
                { db with observation_details := db.observation_details ++
                    [buildObservationRow f rid uid path] }
                [WriteOp.uploadImage "safety-images"
                    (toString env.nowMs ++ "-" ++ name),
                  WriteOp.insertObservation (buildObservationRow f rid uid path)]
              rw [hrun] at he
              replace he : tr = WriteOp.uploadImage "safety-images"
                  (toString env.nowMs ++ "-" ++ name) ::
                WriteOp.insertObservation (buildObservationRow f rid uid path) :: ext := he
              refine ⟨fun e he2 => absurd he2 (by simp), fun op hop hdep => ?_⟩
              refine ⟨[WriteOp.uploadImage "safety-images"
                  (toString env.nowMs ++ "-" ++ name)],
                ext, rid, buildObservationRow f rid uid path, he,
                ?_, rfl, rfl, ?_, ?_⟩
              · intro op2 hop2
                simp only [List.mem_singleton] at hop2
                subst hop2; rfl
              · rw [he] at hop
                rcases List.mem_cons.mp hop with h | h
                · subst h; simp [WriteOp.isDependent] at hdep
                · rcases List.mem_cons.mp h with h2 | h2
                  · subst h2; simp [WriteOp.isDependent] at hdep
                  · exact h2
              · rw [he] at hop
                rcases List.mem_cons.mp hop with h | h
                · subst h; simp [WriteOp.isDependent] at hdep
                · rcases List.mem_cons.mp h with h2 | h2
                  · subst h2; simp [WriteOp.isDependent] at hdep
                  · exact (hall op h2).2

/-- C1 witness: with the Observation insert failing, the concrete submit's
trace holds no dependent write; with every call succeeding, the trace
decomposes as the Observation insert followed by the dependent writes,
each referencing the new id `r1`. -/
theorem C1_observation_created_before_dependents_witness :
    (∀ op ∈ (handleSubmitCreate sampleCreateForm sampleCreateEnvObsFail DB.empty).2.1,
      op.isDependent = false) ∧
    (∃ pre mid rid row,
      (handleSubmitCreate sampleCreateForm sampleCreateEnvOk DB.empty).2.1 =
        pre ++ WriteOp.insertObservation row :: mid ∧
      (∀ op2 ∈ pre, op2.isDependent = false) ∧
      sampleCreateEnvOk.observationResult = Except.ok (some rid) ∧ row.id = rid ∧
      WriteOp.insertCategories (buildCategoryRows ["c1"] "r1") ∈ mid ∧
      WriteOp.refsObservation rid
        (WriteOp.insertCategories (buildCategoryRows ["c1"] "r1"))) := by
  constructor
  · exact (C1_observation_created_before_dependents sampleCreateForm
      sampleCreateEnvObsFail DB.empty _ _ _ rfl).1 "boom" rfl
  · exact (C1_observation_created_before_dependents sampleCreateForm
      sampleCreateEnvOk DB.empty _ _ _ rfl).2
      (WriteOp.insertCategories (buildCategoryRows ["c1"] "r1"))
      (by decide) (by decide)

/-- The Action Plan step persists either no Action Plan row or the whole
staged batch, and appends at most one Action Plan insert to the trace. -/
lemma createActionPlansStep_all_or_nothing (f : CreateForm) (env : CreateEnv)
    (rid uid : String) (db : DB) (tr : List WriteOp) :
    (((createActionPlansStep f env rid uid db tr).1).action_plans = db.action_plans ∨
     ((createActionPlansStep f env rid uid db tr).1).action_plans =
       db.action_plans ++ buildActionPlanRows f.actionPlans rid uid) ∧
    actionPlanInsertCount ((createActionPlansStep f env rid uid db tr).2.1) ≤
      actionPlanInsertCount tr + 1 := by
  by_cases hp : 0 < f.actionPlans.length
  · cases har : env.actionPlansResult with
    | error e =>
      refine ⟨Or.inl ?_, ?_⟩
      · simp [createActionPlansStep, hp, har]
      · simp [createActionPlansStep, hp, har, actionPlanInsertCount]
    | ok u =>
      refine ⟨Or.inr ?_, ?_⟩
      · simp [createActionPlansStep, hp, har]
      · simp [createActionPlansStep, hp, har, actionPlanInsertCount]
  · refine ⟨Or.inl ?_, ?_⟩
    · simp [createActionPlansStep, hp]
    · simp [createActionPlansStep, hp]

/-- The categories step persists either no Action Plan row or the whole
staged batch, and appends at most one Action Plan insert to the trace. -/
lemma createCategoriesStep_all_or_nothing (f : CreateForm) (env : CreateEnv)
    (rid uid : String) (db : DB) (tr : List WriteOp) :
    (((createCategoriesStep f env rid uid db tr).1).action_plans = db.action_plans ∨
     ((createCategoriesStep f env rid uid db tr).1).action_plans =
       db.action_plans ++ buildActionPlanRows f.actionPlans rid uid) ∧
    actionPlanInsertCount ((createCategoriesStep f env rid uid db tr).2.1) ≤
      actionPlanInsertCount tr + 1 := by
  by_cases hc : 0 < f.selectedCategories.length
  · cases hcr : env.categoriesResult with
    | error e =>
      refine ⟨Or.inl ?_, ?_⟩
      · simp [createCategoriesStep, hc, hcr]
      · simp [createCategoriesStep, hc, hcr, actionPlanInsertCount]
    | ok u =>
      have h := createActionPlansStep_all_or_nothing f env rid uid
        { db with observation_categories := db.observation_categories ++
            buildCategoryRows f.selectedCategories rid }
        (tr ++ [WriteOp.insertCategories (buildCategoryRows f.selectedCategories rid)])
      constructor
      · rw [show (createCategoriesStep f env rid uid db tr).1 =
            (createActionPlansStep f env rid uid
              { db with observation_categories := db.observation_categories ++
                  buildCategoryRows f.selectedCategories rid }
              (tr ++ [WriteOp.insertCategories
                (buildCategoryRows f.selectedCategories rid)])).1
          from by simp [createCategoriesStep, hc, hcr]]
        exact h.1
      · rw [show (createCategoriesStep f env rid uid db tr).2.1 =
            (createActionPlansStep f env rid uid
              { db with observation_categories := db.observation_categories ++
                  buildCategoryRows f.selectedCategories rid }
              (tr ++ [WriteOp.insertCategories
                (buildCategoryRows f.selectedCategories rid)])).2.1
          from by simp [createCategoriesStep, hc, hcr]]
        refine le_trans h.2 ?_
        simp [actionPlanInsertCount]
  · rw [show createCategoriesStep f env rid uid db tr =
        createActionPlansStep f env rid uid db tr
      from by simp [createCategoriesStep, hc]]
    exact createActionPlansStep_all_or_nothing f env rid uid db tr

/-- The create submit issues at most one Action Plan insert and persists
either none or all of the staged Action Plans. -/
lemma submitCreate_all_or_nothing (f : CreateForm) (env : CreateEnv)
    (db db' : DB) (tr : List WriteOp) (out : CreateOutcome)
    (hrun : handleSubmitCreate f env db = (db', tr, out)) :
    actionPlanInsertCount tr ≤ 1 ∧
    (db'.action_plans.length = db.action_plans.length ∨
     db'.action_plans.length = db.action_plans.length + f.actionPlans.length) := by
  by_cases hval : (validateForm f).length ≠ 0
  · simp [handleSubmitCreate, hval] at hrun
    obtain ⟨hdb, htr, -⟩ := hrun
    subst htr; subst hdb
    exact ⟨by simp [actionPlanInsertCount], Or.inl rfl⟩
  · cases hu : env.user with
    | none =>
      simp [handleSubmitCreate, hval, hu] at hrun
      obtain ⟨hdb, htr, -⟩ := hrun
      subst htr; subst hdb
      exact ⟨by simp [actionPlanInsertCount], Or.inl rfl⟩
    | some uid =>
      cases hf : f.imageFile with
      | none =>
        cases hobs : env.observationResult with
        | error e =>
          simp [handleSubmitCreate, hval, hu, hf, hobs] at hrun
          obtain ⟨hdb, htr, -⟩ := hrun
          subst htr; subst hdb
          exact ⟨by simp [actionPlanInsertCount], Or.inl rfl⟩
        | ok osr =>
          cases osr with
          | none =>
            simp [handleSubmitCreate, hval, hu, hf, hobs] at hrun
            obtain ⟨hdb, htr, -⟩ := hrun
            subst htr; subst hdb
            exact ⟨by simp [actionPlanInsertCount], Or.inl rfl⟩
          | some rid =>
            rw [show handleSubmitCreate f env db =
                createCategoriesStep f env rid uid
                  { db with observation_details := db.observation_details ++
                      [buildObservationRow f rid uid ""] }
                  [WriteOp.insertObservation (buildObservationRow f rid uid "")]
              from by simp [handleSubmitCreate, hval, hu, hf, hobs]] at hrun
            have h := createCategoriesStep_all_or_nothing f env rid uid
              { db with observation_details := db.observation_details ++
                  [buildObservationRow f rid uid ""] }
              [WriteOp.insertObservation (buildObservationRow f rid uid "")]
            rw [hrun] at h
            refine ⟨le_trans h.2 (by simp [actionPlanInsertCount]), ?_⟩
            rcases h.1 with h1 | h1
            · exact Or.inl (by rw [h1])
            · refine Or.inr ?_
              rw [h1]
              simp [buildActionPlanRows]
      | some name =>
        cases hup : env.uploadResult with
        | error e =>
          simp [handleSubmitCreate, hval, hu, hf, hup] at hrun
          obtain ⟨hdb, htr, -⟩ := hrun
          subst htr; subst hdb
          exact ⟨by simp [actionPlanInsertCount], Or.inl rfl⟩
        | ok path =>
          cases hobs : env.observationResult with
          | error e =>
            simp [handleSubmitCreate, hval, hu, hf, hup, hobs] at hrun
            obtain ⟨hdb, htr, -⟩ := hrun
            subst htr; subst hdb
            exact ⟨by simp [actionPlanInsertCount], Or.inl rfl⟩
          | ok osr =>
            cases osr with
            | none =>
              simp [handleSubmitCreate, hval, hu, hf, hup, hobs] at hrun
              obtain ⟨hdb, htr, -⟩ := hrun
              subst htr; subst hdb
              exact ⟨by simp [actionPlanInsertCount], Or.inl rfl⟩
            | some rid =>
              rw [show handleSubmitCreate f env db =
                  createCategoriesStep f env rid uid
                    { db with observation_details := db.observation_details ++
                        [buildObservationRow f rid uid path] }
                    [WriteOp.uploadImage "safety-images"
                        (toString env.nowMs ++ "-" ++ name),
                      WriteOp.insertObservation (buildObservationRow f rid uid path)]
                from by simp [handleSubmitCreate, hval, hu, hf, hup, hobs]] at hrun
              have h := createCategoriesStep_all_or_nothing f env rid uid
                { db with observation_details := db.observation_details ++
                    [buildObservationRow f rid uid path] }
                [WriteOp.uploadImage "safety-images"
                    (toString env.nowMs ++ "-" ++ name),
                  WriteOp.insertObservation (buildObservationRow f rid uid path)]
              rw [hrun] at h
              refine ⟨le_trans h.2 (by simp [actionPlanInsertCount]), ?_⟩
              rcases h.1 with h1 | h1
              · exact Or.inl (by rw [h1])
              · refine Or.inr ?_
                rw [h1]
                simp [buildActionPlanRows]

/-- C2 (amended): in the create flow's submit, the staged Action Plans go
to the store in at most one batch insert, and the store ends holding
either none of them or all of them — partial success among the staged
Action Plans is impossible. -/
theorem C2_action_plans_single_batch (f : CreateForm) (env : CreateEnv)
    (db db' : DB) (tr : List WriteOp) (out : CreateOutcome)
    (hrun : handleSubmitCreate f env db = (db', tr, out)) :
    actionPlanInsertCount tr ≤ 1 ∧
    (db'.action_plans.length = db.action_plans.length ∨
     db'.action_plans.length = db.action_plans.length + f.actionPlans.length) :=
  submitCreate_all_or_nothing f env db db' tr out hrun

/-- C2 (amended) witness: the concrete all-success submit of the sample
draft issues at most one Action Plan insert and persists both staged
plans. -/
theorem C2_action_plans_single_batch_witness :
    actionPlanInsertCount
        (handleSubmitCreate sampleCreateForm sampleCreateEnvOk DB.empty).2.1 ≤ 1 ∧
    (((handleSubmitCreate sampleCreateForm sampleCreateEnvOk
          DB.empty).1).action_plans.length = DB.empty.action_plans.length ∨
     ((handleSubmitCreate sampleCreateForm sampleCreateEnvOk
          DB.empty).1).action_plans.length =
        DB.empty.action_plans.length + sampleCreateForm.actionPlans.length) :=
  C2_action_plans_single_batch sampleCreateForm sampleCreateEnvOk DB.empty _ _ _ rfl

/-- C2 counterexample: with two staged Action Plans, no environment can
leave exactly one of them persisted — the batch insert makes partial
success among the staged Action Plans impossible, contradicting the
claimed independent per-plan writes. -/
theorem C2_counterexample_no_partial_success :
    ¬ ∃ (env : CreateEnv) (db' : DB) (tr : List WriteOp) (out : CreateOutcome),
        handleSubmitCreate sampleCreateForm env DB.empty = (db', tr, out) ∧
        db'.action_plans.length = 1 := by
  rintro ⟨env, db', tr, out, hrun, hlen⟩
  have h := submitCreate_all_or_nothing sampleCreateForm env DB.empty db' tr out hrun
  rcases h.2 with h2 | h2 <;> rw [hlen] at h2 <;> revert h2 <;> decide

end SafetyPortal
